import Mathlib

/-!
Shallow embedding of `scripts/batch_detect.py` (SCRFD batch face detection
driver) and verification of its specification claims.

The script is a linear batch pipeline: parse CLI arguments, validate the
input directory, create the output directory, construct the detector,
enumerate supported images, and for each image run
decode → convert("RGB") → detect → annotate, then save the annotated image.

External collaborators (filesystem, PIL image codec, the SCRFD detector,
PIL saving) are modelled as an explicit environment of functions; fallible
library calls return `Except String`.  Pixel rasterisation is opaque: an
image is its decoded content identifier, its colour mode, and the ordered
list of drawing operations applied to it.
-/

namespace BatchDetect

/-- A pixel coordinate, as extracted from a detected face
(`face.bbox.upper_left.x` etc. in the script). -/
structure Point where
  x : Int
  y : Int
deriving DecidableEq, Repr

/-- Axis-aligned bounding box given by upper-left and lower-right corners. -/
structure BBox where
  upper_left : Point
  lower_right : Point
deriving DecidableEq, Repr

/-- The five named facial keypoints of a detected face. -/
structure Keypoints where
  left_eye : Point
  right_eye : Point
  nose : Point
  left_mouth : Point
  right_mouth : Point
deriving DecidableEq, Repr

/-- A detected face: bounding box plus five keypoints. -/
structure Face where
  bbox : BBox
  keypoints : Keypoints
deriving DecidableEq, Repr

/-- A drawing primitive issued through `ImageDraw.Draw`:
`draw.rectangle([x1,y1,x2,y2], outline=..., width=...)` or
`draw.ellipse((x1,y1,x2,y2), outline=..., fill=...)`. -/
inductive DrawOp where
  | rectangle (x1 y1 x2 y2 : Int) (outline : String) (width : Nat)
  | ellipse (x1 y1 x2 y2 : Int) (outline : String) (fill : String)
deriving DecidableEq, Repr

/-- A PIL image: the identity of its decoded pixel content, its colour
mode, and the drawing operations burned onto it, in order. -/
structure PILImage where
  content : String
  mode : String
  ops : List DrawOp
deriving DecidableEq, Repr

/-- `img.convert(m)`: same pixel content and overlays, new colour mode. -/
def PILImage.convert (img : PILImage) (m : String) : PILImage :=
  { img with mode := m }

/-- `Threshold(probability=...)` from the scrfd library: a single scalar
probability cutoff.  The Python float is modelled as a rational. -/
structure Threshold where
  probability : Rat
deriving DecidableEq, Repr

/-- One entry of `in_dir.iterdir()`: its filename and whether
`path.is_file()` holds (subdirectories and other non-regular entries have
`isFile = false`). -/
structure DirEntry where
  name : String
  isFile : Bool
deriving DecidableEq, Repr

/-- The extension allow-list of `iter_images`:
`exts = {".jpg", ".jpeg", ".png", ".bmp", ".webp", ".tif", ".tiff"}`. -/
def supportedExts : List String :=
  [".jpg", ".jpeg", ".png", ".bmp", ".webp", ".tif", ".tiff"]

/-- `pathlib.PurePath.suffix`: the substring of the filename from its last
dot, provided that dot is neither the first nor the last character;
otherwise the empty string (CPython: `name[i:]` when `0 < i < len(name)-1`
for `i = name.rfind('.')`). -/
def pysuffix (name : String) : String :=
  let cs := name.toList
  match (cs.enum.filter (fun p => p.2 = '.')).getLast? with
  | none => ""
  | some (i, _) =>
      if 0 < i ∧ i < cs.length - 1 then String.mk (cs.drop i) else ""

/-- Python's `str.lower()`, character by character (agrees with CPython on
the ASCII allow-list and on ASCII filenames). -/
def pyLower (s : String) : String :=
  String.mk (s.toList.map Char.toLower)

/-- The filter of `iter_images`: `path.is_file() and path.suffix.lower() in
exts`. -/
def isSupportedImage (e : DirEntry) : Bool :=
  e.isFile && supportedExts.contains (pyLower (pysuffix e.name))

/-- Lexicographic comparison of character lists by code point, the order
CPython uses to compare the path strings in `sorted(in_dir.iterdir())`. -/
def charListLe : List Char → List Char → Bool
  | [], _ => true
  | _ :: _, [] => false
  | a :: as, b :: bs =>
      if a < b then true
      else if b < a then false
      else charListLe as bs

/-- `strLe a b`: string `a` compares less-or-equal to `b` by code points. -/
def strLe (a b : String) : Bool :=
  charListLe a.toList b.toList

/-- Ordering on directory entries used by `sorted(in_dir.iterdir())`: all
paths share the parent directory, so paths compare by filename. -/
def entryLe (a b : DirEntry) : Prop :=
  strLe a.name b.name = true

instance : DecidableRel entryLe :=
  fun a b => inferInstanceAs (Decidable (strLe a.name b.name = true))

instance : IsTotal DirEntry entryLe :=
  ⟨by
    suffices h : ∀ as bs : List Char, charListLe as bs = true ∨ charListLe bs as = true by
      intro a b
      exact h a.name.toList b.name.toList
    intro as
    induction as with
    | nil => intro bs; exact Or.inl rfl
    | cons a as ih =>
      intro bs
      cases bs with
      | nil => exact Or.inr rfl
      | cons b bs =>
        simp only [charListLe]
        rcases lt_trichotomy a b with h | h | h
        · exact Or.inl (by rw [if_pos h])
        · subst h
          simpa [lt_irrefl] using ih bs
        · exact Or.inr (by rw [if_pos h])⟩

instance : IsTrans DirEntry entryLe :=
  ⟨by
    suffices h : ∀ as bs cs : List Char, charListLe as bs = true →
        charListLe bs cs = true → charListLe as cs = true by
      intro a b c hab hbc
      exact h a.name.toList b.name.toList c.name.toList hab hbc
    intro as
    induction as with
    | nil => intro bs cs _ _; rfl
    | cons a as ih =>
      intro bs cs hab hbc
      cases bs with
      | nil => simp [charListLe] at hab
      | cons b bs =>
        cases cs with
        | nil => simp [charListLe] at hbc
        | cons c cs =>
          simp only [charListLe] at hab hbc ⊢
          rcases lt_trichotomy a b with h1 | h1 | h1
          · rcases lt_trichotomy b c with h2 | h2 | h2
            · rw [if_pos (lt_trans h1 h2)]
            · subst h2; rw [if_pos h1]
            · rw [if_pos h2, if_neg (lt_asymm h2)] at hbc
              simp at hbc
          · subst h1
            rcases lt_trichotomy a c with h2 | h2 | h2
            · rw [if_pos h2]
            · subst h2
              rw [if_neg (lt_irrefl a)] at hab hbc ⊢
              rw [if_neg (lt_irrefl a)] at hab hbc ⊢
              exact ih bs cs hab hbc
            · rw [if_pos h2, if_neg (lt_asymm h2)] at hbc
              simp at hbc
          · rw [if_pos h1, if_neg (lt_asymm h1)] at hab
            simp at hab⟩

/-- `iter_images(in_dir)`: sort the directory listing, keep regular files
with a supported extension (case-insensitively), yield their names in
order. -/
def iter_images (entries : List DirEntry) : List String :=
  ((List.insertionSort entryLe entries).filter isSupportedImage).map DirEntry.name

/-- `draw.rectangle([x1, y1, x2, y2], outline=..., width=...)`. -/
def drawRectangle (img : PILImage) (x1 y1 x2 y2 : Int)
    (outline : String) (width : Nat) : PILImage :=
  { img with ops := img.ops ++ [DrawOp.rectangle x1 y1 x2 y2 outline width] }

/-- `draw.ellipse((x1, y1, x2, y2), outline=..., fill=...)`. -/
def drawEllipse (img : PILImage) (x1 y1 x2 y2 : Int)
    (outline : String) (fill : String) : PILImage :=
  { img with ops := img.ops ++ [DrawOp.ellipse x1 y1 x2 y2 outline fill] }

/-- The `points` list built in `detect_on_image`: the five keypoints in
source order (left eye, right eye, nose, left mouth, right mouth). -/
def facePoints (kps : Keypoints) : List Point :=
  [kps.left_eye, kps.right_eye, kps.nose, kps.left_mouth, kps.right_mouth]

/-- The body of the per-face loop in `detect_on_image`: one rectangle from
the bbox corners (outline "red", width 3), then for each of the five
keypoints one ellipse with bounds `(x-r, y-r, x+r, y+r)` for `r = 3`,
outline "red", fill "red". -/
def annotateFace (img : PILImage) (face : Face) : PILImage :=
  let img := drawRectangle img
    face.bbox.upper_left.x face.bbox.upper_left.y
    face.bbox.lower_right.x face.bbox.lower_right.y "red" 3
  (facePoints face.keypoints).foldl
    (fun im p => drawEllipse im (p.x - 3) (p.y - 3) (p.x + 3) (p.y + 3) "red" "red") img

/-- The external world of the script: filesystem queries, the PIL decoder,
the SCRFD detector, and the PIL save call.  Fallible calls return
`Except String` (the error message of the raised exception). -/
structure Env where
  isDir : String → Bool
  listDir : String → List DirEntry
  loadModel : String → Except String Unit
  decode : String → Except String PILImage
  detect : PILImage → Threshold → Except String (List Face)
  save : PILImage → String → Except String Unit

/-- `detect_on_image(detector, image_path, threshold)`: decode the image,
convert it to RGB, run detection, draw every face, return the image.  Any
exception from decode/convert/detect propagates as `Except.error`. -/
def detect_on_image (env : Env) (image_path : String) (threshold : Threshold) :
    Except String PILImage :=
  match env.decode image_path with
  | .error e => .error e
  | .ok img0 =>
    let img := img0.convert "RGB"
    match env.detect img threshold with
    | .error e => .error e
    | .ok faces => .ok (faces.foldl annotateFace img)

/-- How a run of the script terminates. -/
inductive ExitKind where
  | normal (code : Nat)
  | parserError (msg : String)
  | exception (msg : String)
deriving DecidableEq, Repr

/-- Whether the run was aborted by `parser.error` (argparse usage error). -/
def ExitKind.isParserError : ExitKind → Bool
  | .parserError _ => true
  | _ => false

/-- A command-line invocation: which of the four optional flags were
supplied, and with what values. -/
structure Invocation where
  in_dir? : Option String
  out_dir? : Option String
  model_path? : Option String
  threshold? : Option Rat
deriving Repr

/-- The parsed argument namespace. -/
structure CLIArgs where
  in_dir : Option String
  out_dir : Option String
  model_path : String
  threshold : Rat
deriving Repr

/-- Default of `--model_path`. -/
def defaultModelPath : String := "./models/scrfd.onnx"

/-- `parser.parse_args()`.  None of the four flags is declared with
`required=True`, so an absent `--in_dir` or `--out_dir` parses to `None`;
`--model_path` and `--threshold` fall back to their declared defaults. -/
def parse_args (inv : Invocation) : CLIArgs :=
  { in_dir := inv.in_dir?
    out_dir := inv.out_dir?
    model_path := inv.model_path?.getD defaultModelPath
    threshold := inv.threshold?.getD (2 / 5 : Rat) }

/-- Observable outcome of one run of `main`: how it exited, the lines
printed to stderr, the directories created, whether `SCRFD.from_path`
completed, and the files written (path, image) in order. -/
structure RunResult where
  exit : ExitKind
  stderrLines : List String
  mkdirCalls : List String
  modelLoaded : Bool
  saved : List (String × PILImage)
deriving DecidableEq, Repr

/-- The message of the `AttributeError` raised by `args.in_dir.is_dir()`
when `--in_dir` was not supplied (`args.in_dir` is `None`). -/
def noneIsDirMsg : String :=
  "AttributeError: NoneType object has no attribute is_dir"

/-- The message of the `AttributeError` raised by `args.out_dir.mkdir(...)`
when `--out_dir` was not supplied (`args.out_dir` is `None`). -/
def noneMkdirMsg : String :=
  "AttributeError: NoneType object has no attribute mkdir"

/-- Intermediate state of the per-image loop: stderr lines emitted, files
saved, and—if a `save` call raised—the uncaught exception that aborted the
loop. -/
structure LoopResult where
  stderrLines : List String
  saved : List (String × PILImage)
  fatal : Option String
deriving DecidableEq, Repr

/-- The `for image_path in image_paths` loop of `main`.  `detect_on_image`
is called inside `try`: its exception is caught, printed as
`Failed on {name}: {exc}`, and the loop continues.  The subsequent
`annotated.save(out_file)` is outside the `try`: an exception there is
uncaught and aborts the run, leaving the remaining images unprocessed. -/
def runLoop (env : Env) (out_dir : String) (th : Threshold) :
    List String → LoopResult
  | [] => ⟨[], [], none⟩
  | p :: rest =>
    match detect_on_image env p th with
    | .error e =>
        let r := runLoop env out_dir th rest
        ⟨("Failed on " ++ p ++ ": " ++ e) :: r.stderrLines, r.saved, r.fatal⟩
    | .ok annotated =>
        match env.save annotated (out_dir ++ "/" ++ p) with
        | .error e => ⟨[], [], some e⟩
        | .ok _ =>
            let r := runLoop env out_dir th rest
            ⟨r.stderrLines, (out_dir ++ "/" ++ p, annotated) :: r.saved, r.fatal⟩

/-- The part of `main()` after argument validation, `out_dir` creation and
detector construction: enumerate images, bail out with status 1 if none,
otherwise run the per-image loop and return 0 (or die on an uncaught save
exception). -/
def mainBody (env : Env) (in_dir out_dir : String) (th : Threshold) : RunResult :=
  let image_paths := iter_images (env.listDir in_dir)
  if image_paths.isEmpty then
    ⟨.normal 1, ["No images found in " ++ in_dir], [out_dir], true, []⟩
  else
    let r := runLoop env out_dir th image_paths
    match r.fatal with
    | some e => ⟨.exception e, r.stderrLines, [out_dir], true, r.saved⟩
    | none => ⟨.normal 0, r.stderrLines, [out_dir], true, r.saved⟩

/-- `main()`: parse arguments, validate `in_dir` (via `parser.error` if it
is not a directory), create `out_dir`, construct the detector, then run
`mainBody`.  A missing `--in_dir` or `--out_dir` surfaces as an uncaught
`AttributeError` on `None`, not as a parser error. -/
def main (env : Env) (inv : Invocation) : RunResult :=
  let args := parse_args inv
  match args.in_dir with
  | none => ⟨.exception noneIsDirMsg, [], [], false, []⟩
  | some in_dir =>
    if env.isDir in_dir then
      match args.out_dir with
      | none => ⟨.exception noneMkdirMsg, [], [], false, []⟩
      | some out_dir =>
        match env.loadModel args.model_path with
        | .error e => ⟨.exception e, [], [out_dir], false, []⟩
        | .ok _ => mainBody env in_dir out_dir ⟨args.threshold⟩
    else
      ⟨.parserError ("in_dir does not exist or is not a directory: " ++ in_dir),
        [], [], false, []⟩

/-- Spec-side description of the six drawing operations issued for one
face: the bounding-box rectangle (outline "red", stroke width 3) followed
by one circular marker per keypoint, each the ellipse inscribed in the
square of radius 3 around the keypoint, outlined and filled "red". -/
def specFaceOps (face : Face) : List DrawOp :=
  DrawOp.rectangle
      face.bbox.upper_left.x face.bbox.upper_left.y
      face.bbox.lower_right.x face.bbox.lower_right.y "red" 3
    :: (facePoints face.keypoints).map
      (fun p => DrawOp.ellipse (p.x - 3) (p.y - 3) (p.x + 3) (p.y + 3) "red" "red")

/-- Spec-side description of the stderr output of a loop over `ps` in
which every `save` succeeds: one `Failed on {name}: {exc}` line per image
whose decode/convert/detect/annotate stage raised. -/
def failureLines (env : Env) (th : Threshold) (ps : List String) : List String :=
  ps.filterMap fun n =>
    match detect_on_image env n th with
    | .ok _ => none
    | .error e => some ("Failed on " ++ n ++ ": " ++ e)

/-- Spec-side description of the files written by a loop over `ps` in
which every `save` succeeds: one file per successfully annotated image,
under the same filename inside `out_dir`. -/
def successOutputs (env : Env) (out_dir : String) (th : Threshold)
    (ps : List String) : List (String × PILImage) :=
  ps.filterMap fun n =>
    match detect_on_image env n th with
    | .ok i => some (out_dir ++ "/" ++ n, i)
    | .error _ => none

/-- A freshly decoded image for filename `n`, before colour conversion. -/
def rawImage (n : String) : PILImage :=
  ⟨n, "raw", []⟩

/-- The standard invocation used by concrete runs:
`--in_dir in --out_dir out`. -/
def stdInv : Invocation :=
  ⟨some "in", some "out", none, none⟩

/-- The threshold of the default `--threshold 0.4`. -/
def stdTh : Threshold :=
  ⟨2 / 5⟩

/-- Invocation with `--in_dir` omitted. -/
def invNoIn : Invocation :=
  ⟨none, some "out", none, none⟩

/-- Invocation with `--out_dir` omitted. -/
def invNoOut : Invocation :=
  ⟨some "in", none, none, none⟩

/-- A concrete detected face used by concrete runs. -/
def sampleFace : Face :=
  ⟨⟨⟨10, 20⟩, ⟨30, 40⟩⟩, ⟨⟨12, 22⟩, ⟨28, 22⟩, ⟨20, 30⟩, ⟨14, 36⟩, ⟨26, 36⟩⟩⟩

/-- Environment whose input directory holds two supported images (one with
an uppercase extension), one unsupported file and one subdirectory; every
stage succeeds and the detector finds `sampleFace` on `b.PNG` and nothing
on `a.jpg`. -/
def okEnv : Env where
  isDir := fun d => d == "in"
  listDir := fun d =>
    if d == "in" then
      [⟨"b.PNG", true⟩, ⟨"a.jpg", true⟩, ⟨"notes.txt", true⟩, ⟨"sub", false⟩]
    else []
  loadModel := fun _ => Except.ok ()
  decode := fun n => Except.ok (rawImage n)
  detect := fun i _ =>
    Except.ok (if i.content == "b.PNG" then [sampleFace] else [])
  save := fun _ _ => Except.ok ()

/-- Environment with two good images where the detector raises on exactly
`a.jpg`; saves always succeed. -/
def throwEnv : Env where
  isDir := fun d => d == "in"
  listDir := fun d =>
    if d == "in" then [⟨"a.jpg", true⟩, ⟨"b.jpg", true⟩] else []
  loadModel := fun _ => Except.ok ()
  decode := fun n => Except.ok (rawImage n)
  detect := fun i _ =>
    if i.content == "a.jpg" then Except.error "boom" else Except.ok []
  save := fun _ _ => Except.ok ()

/-- Environment with two good images where decoding and detection succeed
but saving `out/a.jpg` raises (e.g. the disk is full). -/
def crashEnv : Env where
  isDir := fun d => d == "in"
  listDir := fun d =>
    if d == "in" then [⟨"a.jpg", true⟩, ⟨"b.jpg", true⟩] else []
  loadModel := fun _ => Except.ok ()
  decode := fun n => Except.ok (rawImage n)
  detect := fun _ _ => Except.ok []
  save := fun _ f =>
    if f == "out/a.jpg" then Except.error "disk full" else Except.ok ()

/-- Environment whose input directory holds no file with a supported
extension; decode, detect and save would all raise if they were ever
reached. -/
def emptyEnv : Env where
  isDir := fun d => d == "in"
  listDir := fun d =>
    if d == "in" then [⟨"notes.txt", true⟩, ⟨"pics", false⟩] else []
  loadModel := fun _ => Except.ok ()
  decode := fun _ => Except.error "decode reached"
  detect := fun _ _ => Except.error "detect reached"
  save := fun _ _ => Except.error "save reached"

/-- A trivial environment for runs that never get past argument handling. -/
def plainEnv : Env where
  isDir := fun _ => true
  listDir := fun _ => []
  loadModel := fun _ => Except.ok ()
  decode := fun _ => Except.error "decode reached"
  detect := fun _ _ => Except.error "detect reached"
  save := fun _ _ => Except.ok ()

/-- Environment like `okEnv` but with a detector that finds no faces on
any image. -/
def zeroFaceEnv : Env where
  isDir := fun d => d == "in"
  listDir := fun d =>
    if d == "in" then
      [⟨"b.PNG", true⟩, ⟨"a.jpg", true⟩, ⟨"notes.txt", true⟩, ⟨"sub", false⟩]
    else []
  loadModel := fun _ => Except.ok ()
  decode := fun n => Except.ok (rawImage n)
  detect := fun _ _ => Except.ok []
  save := fun _ _ => Except.ok ()

/-- Environment agreeing with `okEnv` on everything `main` can observe
under `stdInv` (the listing of `in`, decode, detect, save, and the model
load at the default path) but differing elsewhere: other paths pass the
directory check and hold a ghost listing, and other model paths fail to
load. -/
def okEnvB : Env where
  isDir := fun _ => true
  listDir := fun d =>
    if d == "in" then
      [⟨"b.PNG", true⟩, ⟨"a.jpg", true⟩, ⟨"notes.txt", true⟩, ⟨"sub", false⟩]
    else [⟨"ghost.png", true⟩]
  loadModel := fun p =>
    if p == defaultModelPath then Except.ok () else Except.error "missing model"
  decode := fun n => Except.ok (rawImage n)
  detect := fun i _ =>
    Except.ok (if i.content == "b.PNG" then [sampleFace] else [])
  save := fun _ _ => Except.ok ()

/-! ## Helper lemmas -/

theorem charListLe_iff_not_lt : ∀ as bs : List Char, charListLe as bs = true ↔ ¬ bs < as := by
  intro as
  induction as with
  | nil =>
    intro bs
    simp only [charListLe, true_iff]
    intro h
    cases h
  | cons a as ih =>
    intro bs
    cases bs with
    | nil =>
      simp only [charListLe, Bool.false_eq_true, false_iff, not_not]
      exact List.Lex.nil
    | cons b bs =>
      simp only [charListLe]
      rcases lt_trichotomy a b with h1 | h1 | h1
      · rw [if_pos h1]
        simp only [true_iff]
        intro h
        cases h with
        | cons h => exact lt_irrefl a h1
        | rel h => exact lt_asymm h1 h
      · subst h1
        rw [if_neg (lt_irrefl a), if_neg (lt_irrefl a)]
        rw [ih bs]
        constructor
        · intro h hl
          cases hl with
          | cons hl => exact h hl
          | rel hl => exact lt_irrefl a hl
        · intro h hl
          exact h (List.Lex.cons hl)
      · rw [if_neg (lt_asymm h1), if_pos h1]
        simp only [Bool.false_eq_true, false_iff, not_not]
        exact List.Lex.rel h1

theorem strLe_iff_le (a b : String) : strLe a b = true ↔ a ≤ b := by
  rw [strLe, charListLe_iff_not_lt, not_lt, ← String.le_iff_toList_le]

theorem isSupportedImage_iff (e : DirEntry) :
    isSupportedImage e = true ↔
      e.isFile = true ∧ pyLower (pysuffix e.name) ∈ supportedExts := by
  simp [isSupportedImage]

theorem mem_iter_images (entries : List DirEntry) (n : String) :
    n ∈ iter_images entries ↔
      ∃ e, e ∈ entries ∧ e.name = n ∧ e.isFile = true ∧
        pyLower (pysuffix e.name) ∈ supportedExts := by
  unfold iter_images
  simp only [List.mem_map, List.mem_filter,
    (List.perm_insertionSort entryLe entries).mem_iff, isSupportedImage_iff]
  constructor
  · rintro ⟨e, ⟨he, hf, hs⟩, rfl⟩
    exact ⟨e, he, rfl, hf, hs⟩
  · rintro ⟨e, he, rfl, hf, hs⟩
    exact ⟨e, ⟨he, hf, hs⟩, rfl⟩

theorem iter_images_sorted (entries : List DirEntry) :
    (iter_images entries).Sorted (· ≤ ·) := by
  unfold iter_images
  refine List.pairwise_map.mpr ?_
  have h1 : (List.insertionSort entryLe entries).Pairwise entryLe :=
    List.sorted_insertionSort entryLe entries
  have h2 : (List.filter isSupportedImage
      (List.insertionSort entryLe entries)).Pairwise entryLe :=
    List.Pairwise.sublist (List.filter_sublist _) h1
  exact h2.imp fun h => (strLe_iff_le _ _).mp h

theorem iter_images_length (entries : List DirEntry) :
    (iter_images entries).length = (entries.filter isSupportedImage).length := by
  unfold iter_images
  rw [List.length_map]
  exact ((List.perm_insertionSort entryLe entries).filter isSupportedImage).length_eq

/-! ## Claim C3 -/

/-- C3 (confirmed): `iter_images` yields exactly the names of the regular
files directly in the listed directory whose extension, lowercased, is in
the fixed allow-list `{jpg, jpeg, png, bmp, webp, tif, tiff}`; the yielded
names are in lexicographic (code-point) order; and for a directory with N
supported images among any other entries, exactly N names are yielded. -/
theorem C3_enumerator (entries : List DirEntry) :
    (∀ n, n ∈ iter_images entries ↔
        ∃ e, e ∈ entries ∧ e.name = n ∧ e.isFile = true ∧
          pyLower (pysuffix e.name) ∈ supportedExts)
    ∧ (iter_images entries).Sorted (· ≤ ·)
    ∧ (iter_images entries).length = (entries.filter isSupportedImage).length :=
  ⟨fun n => mem_iter_images entries n, iter_images_sorted entries,
    iter_images_length entries⟩

/-! ## Annotation lemmas -/

theorem annotateFace_eq (img : PILImage) (face : Face) :
    annotateFace img face = ⟨img.content, img.mode, img.ops ++ specFaceOps face⟩ := by
  simp [annotateFace, drawRectangle, drawEllipse, facePoints, specFaceOps]

theorem foldl_annotateFace (faces : List Face) (img : PILImage) :
    faces.foldl annotateFace img =
      ⟨img.content, img.mode, img.ops ++ faces.flatMap specFaceOps⟩ := by
  induction faces generalizing img with
  | nil => simp
  | cons f fs ih =>
    rw [List.foldl_cons, annotateFace_eq, ih]
    simp

theorem detect_on_image_decode_error (env : Env) (p : String) (th : Threshold) (e : String)
    (h : env.decode p = Except.error e) :
    detect_on_image env p th = Except.error e := by
  simp [detect_on_image, h]

theorem detect_on_image_detect_error (env : Env) (p : String) (th : Threshold)
    (img : PILImage) (e : String)
    (h : env.decode p = Except.ok img)
    (hd : env.detect (img.convert "RGB") th = Except.error e) :
    detect_on_image env p th = Except.error e := by
  simp [detect_on_image, h, hd]

theorem detect_on_image_ok (env : Env) (p : String) (th : Threshold)
    (img : PILImage) (faces : List Face)
    (h : env.decode p = Except.ok img)
    (hd : env.detect (img.convert "RGB") th = Except.ok faces) :
    detect_on_image env p th =
      Except.ok ⟨img.content, "RGB", img.ops ++ faces.flatMap specFaceOps⟩ := by
  simp only [detect_on_image, PILImage.convert, h] at hd ⊢
  rw [hd]
  simp [foldl_annotateFace]

/-! ## Claim C7 -/

/-- C7 (confirmed): the annotation loop of `detect_on_image`, run over any
sequence of detected faces, leaves the image's pixel content and colour
mode untouched and appends, for each face in order, exactly the six
drawing operations of `specFaceOps`: one axis-aligned rectangle outline
with fixed colour "red" and fixed stroke width 3 spanning the bounding
box's upper-left and lower-right corners, followed by exactly five
filled-and-outlined circular markers of fixed radius 3 and fixed colour
"red" centred at the five keypoints (left eye, right eye, nose, left
mouth corner, right mouth corner).  The same (mutated) image is the one
returned. -/
theorem C7_annotator (img : PILImage) (faces : List Face) :
    faces.foldl annotateFace img =
      ⟨img.content, img.mode, img.ops ++ faces.flatMap specFaceOps⟩ :=
  foldl_annotateFace faces img

/-! ## Loop lemmas -/

theorem string_append_cancel {a b c : String} (h : a ++ b = a ++ c) : b = c := by
  have hd := congrArg String.data h
  simp only [String.data_append, List.append_cancel_left_eq] at hd
  exact String.ext hd

theorem runLoop_cons_error (env : Env) (out_dir : String) (th : Threshold)
    (p : String) (rest : List String) (e : String)
    (h : detect_on_image env p th = Except.error e) :
    runLoop env out_dir th (p :: rest) =
      ⟨("Failed on " ++ p ++ ": " ++ e) :: (runLoop env out_dir th rest).stderrLines,
        (runLoop env out_dir th rest).saved,
        (runLoop env out_dir th rest).fatal⟩ := by
  simp [runLoop, h]

theorem runLoop_cons_save_error (env : Env) (out_dir : String) (th : Threshold)
    (p : String) (rest : List String) (img : PILImage) (e : String)
    (h : detect_on_image env p th = Except.ok img)
    (hs : env.save img (out_dir ++ "/" ++ p) = Except.error e) :
    runLoop env out_dir th (p :: rest) = ⟨[], [], some e⟩ := by
  simp [runLoop, h, hs]

theorem runLoop_save_ok (env : Env) (out_dir : String) (th : Threshold)
    (hs : ∀ img f, env.save img f = Except.ok ()) (ps : List String) :
    runLoop env out_dir th ps =
      ⟨failureLines env th ps, successOutputs env out_dir th ps, none⟩ := by
  induction ps with
  | nil => rfl
  | cons p rest ih =>
    cases h : detect_on_image env p th with
    | error e =>
      simp [runLoop, h, ih, failureLines, successOutputs, List.filterMap_cons]
    | ok img =>
      simp [runLoop, h, hs, ih, failureLines, successOutputs, List.filterMap_cons]

theorem runLoop_saved_sound (env : Env) (out_dir : String) (th : Threshold) :
    ∀ ps f img, (f, img) ∈ (runLoop env out_dir th ps).saved →
      ∃ n, n ∈ ps ∧ f = out_dir ++ "/" ++ n ∧
        detect_on_image env n th = Except.ok img := by
  intro ps
  induction ps with
  | nil => intro f img h; simp [runLoop] at h
  | cons p rest ih =>
    intro f img h
    cases hd : detect_on_image env p th with
    | error e =>
      rw [runLoop_cons_error env out_dir th p rest e hd] at h
      obtain ⟨n, hn, hf, hok⟩ := ih f img h
      exact ⟨n, List.mem_cons_of_mem _ hn, hf, hok⟩
    | ok annotated =>
      cases hs : env.save annotated (out_dir ++ "/" ++ p) with
      | error e =>
        rw [runLoop_cons_save_error env out_dir th p rest annotated e hd hs] at h
        simp at h
      | ok u =>
        simp only [runLoop, hd, hs] at h
        rcases List.mem_cons.mp h with h1 | h2
        · obtain ⟨hf, himg⟩ := Prod.mk.injEq .. ▸ h1
          exact ⟨p, List.mem_cons_self p rest, hf, by rw [hd, himg]⟩
        · obtain ⟨n, hn, hf, hok⟩ := ih f img h2
          exact ⟨n, List.mem_cons_of_mem _ hn, hf, hok⟩

/-! ## Claim C10 -/

/-- C10 (confirmed): per-image failure is atomic with respect to the
output directory.  Every file recorded as saved by the loop belongs to an
image whose whole decode/convert/detect/annotate pipeline succeeded and
carries that annotated result under `out_dir/name`; consequently, for an
image on which `detect_on_image` raised (and whose exception was caught),
no output file under its filename is written in that iteration. -/
theorem C10_atomic_failure (env : Env) (out_dir : String) (th : Threshold)
    (ps : List String) :
    (∀ f img, (f, img) ∈ (runLoop env out_dir th ps).saved →
        ∃ n, n ∈ ps ∧ f = out_dir ++ "/" ++ n ∧
          detect_on_image env n th = Except.ok img)
    ∧ ∀ n e img, n ∈ ps → detect_on_image env n th = Except.error e →
        (out_dir ++ "/" ++ n, img) ∉ (runLoop env out_dir th ps).saved := by
  refine ⟨runLoop_saved_sound env out_dir th ps, ?_⟩
  intro n e img _ hdet hmem
  obtain ⟨m, _, hf, hok⟩ := runLoop_saved_sound env out_dir th ps _ _ hmem
  have hmn : n = m := by
    have h1 : (out_dir ++ "/") ++ n = (out_dir ++ "/") ++ m := by
      simpa [String.append_assoc] using hf
    exact string_append_cancel h1
  rw [← hmn, hdet] at hok
  exact Except.noConfusion hok

/-- Witness for C10 at a concrete input: in `throwEnv` the detector raises
on `a.jpg`, and indeed no file `out/a.jpg` is among the loop's outputs. -/
theorem C10_witness :
    ("out/a.jpg", rawImage "a.jpg") ∉
      (runLoop throwEnv "out" stdTh ["a.jpg", "b.jpg"]).saved :=
  (C10_atomic_failure throwEnv "out" stdTh ["a.jpg", "b.jpg"]).2
    "a.jpg" "boom" (rawImage "a.jpg") (by decide) rfl

/-! ## Driver lemmas -/

theorem main_valid (env : Env) (inv : Invocation) (in_dir out_dir : String)
    (hin : inv.in_dir? = some in_dir) (hdir : env.isDir in_dir = true)
    (hout : inv.out_dir? = some out_dir)
    (hmodel : env.loadModel (parse_args inv).model_path = Except.ok ()) :
    main env inv = mainBody env in_dir out_dir ⟨(parse_args inv).threshold⟩ := by
  have h1 : (parse_args inv).in_dir = some in_dir := by simp [parse_args, hin]
  have h2 : (parse_args inv).out_dir = some out_dir := by simp [parse_args, hout]
  simp [main, h1, h2, hdir, hmodel]

theorem mainBody_empty (env : Env) (in_dir out_dir : String) (th : Threshold)
    (h : iter_images (env.listDir in_dir) = []) :
    mainBody env in_dir out_dir th =
      ⟨.normal 1, ["No images found in " ++ in_dir], [out_dir], true, []⟩ := by
  simp [mainBody, h]

theorem mainBody_save_ok (env : Env) (in_dir out_dir : String) (th : Threshold)
    (hs : ∀ img f, env.save img f = Except.ok ())
    (hne : iter_images (env.listDir in_dir) ≠ []) :
    mainBody env in_dir out_dir th =
      ⟨.normal 0, failureLines env th (iter_images (env.listDir in_dir)), [out_dir],
        true, successOutputs env out_dir th (iter_images (env.listDir in_dir))⟩ := by
  have hne' : (iter_images (env.listDir in_dir)).isEmpty = false := by
    cases hi : iter_images (env.listDir in_dir) with
    | nil => exact absurd hi hne
    | cons a l => rfl
  simp [mainBody, runLoop_save_ok env out_dir th hs, hne']

/-! ## Claim C1 -/

/-- Counterexample to C1 as stated.  In `crashEnv` two supported images
are enumerated; decoding, detection and annotation succeed on both, but
saving the first output (`out/a.jpg`) raises.  Contrary to the claim that
any exception of the per-image sequence — saving included — is caught,
logged and skipped, the run aborts with an uncaught exception: no error
line is written for `a.jpg`, and the second image is never processed
(nothing at all is saved). -/
theorem C1_counterexample :
    iter_images (crashEnv.listDir "in") = ["a.jpg", "b.jpg"] ∧
    main crashEnv stdInv =
      ⟨ExitKind.exception "disk full", [], ["out"], true, []⟩ := by
  constructor <;> decide

/-- C1 (corrected): an exception raised during decode, colour conversion,
detection or annotation (the body of `detect_on_image`, the part inside
`try`) is caught; a line containing the filename and the error message is
written to the error stream and processing continues with the next image.
A failure while *saving*, however, is outside the `try` block: it is not
caught, nothing is logged, and it aborts the whole batch. -/
theorem C1_catch_amended (env : Env) (out_dir : String) (th : Threshold)
    (p : String) (rest : List String) (e : String) (img : PILImage) :
    (detect_on_image env p th = Except.error e →
        runLoop env out_dir th (p :: rest) =
          ⟨("Failed on " ++ p ++ ": " ++ e) :: (runLoop env out_dir th rest).stderrLines,
            (runLoop env out_dir th rest).saved,
            (runLoop env out_dir th rest).fatal⟩)
    ∧ (detect_on_image env p th = Except.ok img →
        env.save img (out_dir ++ "/" ++ p) = Except.error e →
        runLoop env out_dir th (p :: rest) = ⟨[], [], some e⟩) :=
  ⟨runLoop_cons_error env out_dir th p rest e,
    fun h hs => runLoop_cons_save_error env out_dir th p rest img e h hs⟩

/-- Witness for C1 (amended) at concrete inputs: the detector exception on
`a.jpg` in `throwEnv` is caught, logged with the filename, and `b.jpg` is
still processed; the save exception in `crashEnv` aborts the loop. -/
theorem C1_witness :
    runLoop throwEnv "out" stdTh ["a.jpg", "b.jpg"] =
      ⟨["Failed on a.jpg: boom"], [("out/b.jpg", ⟨"b.jpg", "RGB", []⟩)], none⟩ ∧
    runLoop crashEnv "out" stdTh ["a.jpg", "b.jpg"] = ⟨[], [], some "disk full"⟩ := by
  constructor
  · have h := (C1_catch_amended throwEnv "out" stdTh "a.jpg" ["b.jpg"] "boom"
      (rawImage "a.jpg")).1 rfl
    rw [h]; decide
  · exact (C1_catch_amended crashEnv "out" stdTh "a.jpg" ["b.jpg"] "disk full"
      ⟨"a.jpg", "RGB", []⟩).2 rfl rfl

/-! ## Claim C2 -/

/-- Counterexample to C2 as stated.  In `crashEnv` at least one supported
image is enumerated (two are), yet the process does not terminate with
exit status 0 and does not attempt every enumerated image: the save
failure on the first image is an uncaught exception that aborts the run
with a nonzero status. -/
theorem C2_counterexample :
    iter_images (crashEnv.listDir "in") ≠ [] ∧
    (main crashEnv stdInv).exit ≠ ExitKind.normal 0 := by
  constructor <;> decide

/-- C2 (corrected): *provided no save call raises*, whenever at least one
supported image is enumerated the process attempts every enumerated image
and terminates with exit status 0, however many images failed inside
`detect_on_image`: each failing filename is reported on the error stream
(`failureLines`) and each succeeding image yields one annotated output
(`successOutputs`).  In particular, for a detector that throws on exactly
one of N images the output directory holds N−1 annotated images, the
failing filename is reported, and the exit status is still 0. -/
theorem C2_exit_zero_amended (env : Env) (inv : Invocation) (in_dir out_dir : String)
    (hin : inv.in_dir? = some in_dir) (hdir : env.isDir in_dir = true)
    (hout : inv.out_dir? = some out_dir)
    (hmodel : env.loadModel (parse_args inv).model_path = Except.ok ())
    (hs : ∀ img f, env.save img f = Except.ok ())
    (hne : iter_images (env.listDir in_dir) ≠ []) :
    main env inv =
      ⟨.normal 0,
        failureLines env ⟨(parse_args inv).threshold⟩ (iter_images (env.listDir in_dir)),
        [out_dir], true,
        successOutputs env out_dir ⟨(parse_args inv).threshold⟩
          (iter_images (env.listDir in_dir))⟩ := by
  rw [main_valid env inv in_dir out_dir hin hdir hout hmodel,
    mainBody_save_ok env in_dir out_dir _ hs hne]

/-- Witness for C2 (amended): in `throwEnv` the detector throws on exactly
one of the two enumerated images; the run exits 0, saves 2−1 = 1 annotated
image, and reports the failing filename on the error stream. -/
theorem C2_witness :
    iter_images (throwEnv.listDir "in") = ["a.jpg", "b.jpg"] ∧
    (main throwEnv stdInv).exit = ExitKind.normal 0 ∧
    (main throwEnv stdInv).saved.length = 1 ∧
    (main throwEnv stdInv).stderrLines = ["Failed on a.jpg: boom"] := by
  have h := C2_exit_zero_amended throwEnv stdInv "in" "out" rfl rfl rfl rfl
    (fun _ _ => rfl) (by decide)
  refine ⟨by decide, ?_, ?_, ?_⟩ <;> rw [h] <;> decide

/-! ## Claim C4 -/

/-- Counterexample to C4 as stated.  `--in_dir` and `--out_dir` are added
to the parser without `required=True`, so an invocation missing a flag is
*not* rejected by the argument parser: parsing succeeds with `None` and
the abort is an uncaught `AttributeError` raised when `main` touches the
missing path (`None.is_dir()` resp. `None.mkdir(...)`), not a parser
error. -/
theorem C4_counterexample :
    (main plainEnv invNoIn).exit.isParserError = false ∧
    (main plainEnv invNoIn).exit = ExitKind.exception noneIsDirMsg ∧
    (main plainEnv invNoOut).exit.isParserError = false ∧
    (main plainEnv invNoOut).exit = ExitKind.exception noneMkdirMsg := by
  refine ⟨?_, ?_, ?_, ?_⟩ <;> decide

/-- C4 (corrected): neither `--in_dir` nor `--out_dir` is declared
required, so the argument parser accepts an invocation missing them; the
process still aborts with a non-zero status before any work begins — an
uncaught `AttributeError` on the `None` path — with no directory created
and no model loaded.  A missing `--in_dir` fails at the `is_dir` check; a
present, valid `--in_dir` with a missing `--out_dir` fails at `mkdir`. -/
theorem C4_missing_flags_amended (env : Env) (inv : Invocation) :
    (inv.in_dir? = none →
        main env inv = ⟨.exception noneIsDirMsg, [], [], false, []⟩)
    ∧ ∀ d, inv.in_dir? = some d → env.isDir d = true → inv.out_dir? = none →
        main env inv = ⟨.exception noneMkdirMsg, [], [], false, []⟩ := by
  constructor
  · intro h
    have h1 : (parse_args inv).in_dir = none := by simp [parse_args, h]
    simp [main, h1]
  · intro d hd hdir hout
    have h1 : (parse_args inv).in_dir = some d := by simp [parse_args, hd]
    have h2 : (parse_args inv).out_dir = none := by simp [parse_args, hout]
    simp [main, h1, h2, hdir]

/-- Witness for C4 (amended) at the two concrete invocations. -/
theorem C4_witness :
    main plainEnv invNoIn = ⟨.exception noneIsDirMsg, [], [], false, []⟩ ∧
    main plainEnv invNoOut = ⟨.exception noneMkdirMsg, [], [], false, []⟩ :=
  ⟨(C4_missing_flags_amended plainEnv invNoIn).1 rfl,
    (C4_missing_flags_amended plainEnv invNoOut).2 "in" rfl rfl rfl⟩

/-! ## Claim C5 -/

/-- C5 (confirmed): for an input directory none of whose entries is a
supported image, the run writes `No images found in {in_dir}` to the
error stream and exits with status 1.  The statement holds for *every*
`decode`, `detect` and `save` (they are untouched fields of `env`), the
model is already loaded (`modelLoaded = true`), and nothing is saved —
i.e. the condition is detected after detector construction and before any
per-image work. -/
theorem C5_empty_input (env : Env) (inv : Invocation) (in_dir out_dir : String)
    (hin : inv.in_dir? = some in_dir) (hdir : env.isDir in_dir = true)
    (hout : inv.out_dir? = some out_dir)
    (hmodel : env.loadModel (parse_args inv).model_path = Except.ok ())
    (hempty : ∀ e ∈ env.listDir in_dir, isSupportedImage e = false) :
    main env inv =
      ⟨.normal 1, ["No images found in " ++ in_dir], [out_dir], true, []⟩ := by
  have h : iter_images (env.listDir in_dir) = [] := by
    unfold iter_images
    have hf : List.filter isSupportedImage
        (List.insertionSort entryLe (env.listDir in_dir)) = [] := by
      rw [List.filter_eq_nil_iff]
      intro a ha
      have hm := (List.perm_insertionSort entryLe (env.listDir in_dir)).mem_iff.mp ha
      simp [hempty a hm]
    rw [hf]
    rfl
  rw [main_valid env inv in_dir out_dir hin hdir hout hmodel,
    mainBody_empty env in_dir out_dir _ h]

/-- Witness for C5: `emptyEnv` lists only an unsupported file and a
subdirectory; its decode/detect/save all raise, yet are never reached. -/
theorem C5_witness :
    main emptyEnv stdInv =
      ⟨.normal 1, ["No images found in in"], ["out"], true, []⟩ := by
  rw [C5_empty_input emptyEnv stdInv "in" "out" rfl rfl rfl rfl (by decide)]
  decide

/-! ## Claim C6 -/

/-- C6 (confirmed): when the detector returns an empty sequence of faces,
the annotation loop performs no drawing — `detect_on_image` returns the
decoded image RGB-converted with its drawing-operation list unchanged —
and, for a detector returning zero faces on every image (with decode and
save succeeding), the batch writes exactly one output per enumerated
input, under the same filename in `out_dir`, whose content is the
unmodified RGB-converted input. -/
theorem C6_zero_faces (env : Env) (inv : Invocation) (in_dir out_dir : String)
    (dec : String → PILImage)
    (hin : inv.in_dir? = some in_dir) (hdir : env.isDir in_dir = true)
    (hout : inv.out_dir? = some out_dir)
    (hmodel : env.loadModel (parse_args inv).model_path = Except.ok ())
    (hdec : ∀ n, env.decode n = Except.ok (dec n))
    (hdet : ∀ i t, env.detect i t = Except.ok [])
    (hs : ∀ img f, env.save img f = Except.ok ()) :
    (∀ n th, detect_on_image env n th = Except.ok ((dec n).convert "RGB"))
    ∧ (main env inv).saved =
        (iter_images (env.listDir in_dir)).map
          (fun n => (out_dir ++ "/" ++ n, (dec n).convert "RGB")) := by
  have hdoi : ∀ n th, detect_on_image env n th = Except.ok ((dec n).convert "RGB") := by
    intro n th
    have h := detect_on_image_ok env n th (dec n) [] (hdec n) (hdet _ _)
    simpa [PILImage.convert] using h
  refine ⟨hdoi, ?_⟩
  have hmap : ∀ ps : List String,
      successOutputs env out_dir ⟨(parse_args inv).threshold⟩ ps =
        ps.map (fun n => (out_dir ++ "/" ++ n, (dec n).convert "RGB")) := by
    intro ps
    induction ps with
    | nil => rfl
    | cons p rest ih =>
      simp only [successOutputs, List.filterMap_cons, hdoi] at ih ⊢
      rw [ih, List.map_cons]
  rcases eq_or_ne (iter_images (env.listDir in_dir)) [] with hcase | hcase
  · rw [main_valid env inv in_dir out_dir hin hdir hout hmodel,
      mainBody_empty env in_dir out_dir _ hcase, hcase]
    rfl
  · rw [main_valid env inv in_dir out_dir hin hdir hout hmodel,
      mainBody_save_ok env in_dir out_dir _ hs hcase]
    exact hmap _

/-- Witness for C6: in `zeroFaceEnv` both supported images come out as
their RGB conversions with an empty drawing list, under their own
filenames. -/
theorem C6_witness :
    detect_on_image zeroFaceEnv "a.jpg" stdTh = Except.ok ⟨"a.jpg", "RGB", []⟩ ∧
    (main zeroFaceEnv stdInv).saved =
      [("out/a.jpg", ⟨"a.jpg", "RGB", []⟩), ("out/b.PNG", ⟨"b.PNG", "RGB", []⟩)] := by
  have h := C6_zero_faces zeroFaceEnv stdInv "in" "out" rawImage rfl rfl rfl rfl
    (fun _ => rfl) (fun _ _ => rfl) (fun _ _ => rfl)
  constructor
  · exact h.1 "a.jpg" stdTh
  · rw [h.2]
    decide

/-! ## Claim C8 -/

theorem main_model_error (env : Env) (inv : Invocation) (in_dir out_dir e : String)
    (hin : inv.in_dir? = some in_dir) (hdir : env.isDir in_dir = true)
    (hout : inv.out_dir? = some out_dir)
    (hm : env.loadModel (parse_args inv).model_path = Except.error e) :
    main env inv = ⟨.exception e, [], [out_dir], false, []⟩ := by
  have h1 : (parse_args inv).in_dir = some in_dir := by simp [parse_args, hin]
  have h2 : (parse_args inv).out_dir = some out_dir := by simp [parse_args, hout]
  simp [main, h1, h2, hdir, hm]

theorem mainBody_mkdirCalls (env : Env) (in_dir out_dir : String) (th : Threshold) :
    (mainBody env in_dir out_dir th).mkdirCalls = [out_dir] := by
  simp only [mainBody]
  split
  · rfl
  · split <;> rfl

/-- C8 (confirmed): once the arguments are valid (`in_dir` exists and both
flags are present), the output directory is created — `mkdir` is called on
`out_dir` exactly once, before the per-image loop and even before the
detector is constructed (the call is recorded whether or not the model
loads, and whether or not the directory pre-existed: `parents=True,
exist_ok=True`) — and, when the model loads and saves succeed, every
successfully processed input image produces exactly one output file,
written under the same filename inside `out_dir` (`successOutputs` has one
entry `(out_dir/name, annotated)` per image whose pipeline succeeded). -/
theorem C8_output_layout (env : Env) (inv : Invocation) (in_dir out_dir : String)
    (hin : inv.in_dir? = some in_dir) (hdir : env.isDir in_dir = true)
    (hout : inv.out_dir? = some out_dir) :
    (main env inv).mkdirCalls = [out_dir]
    ∧ (env.loadModel (parse_args inv).model_path = Except.ok () →
        (∀ img f, env.save img f = Except.ok ()) →
        (main env inv).saved =
          successOutputs env out_dir ⟨(parse_args inv).threshold⟩
            (iter_images (env.listDir in_dir))) := by
  constructor
  · cases hm : env.loadModel (parse_args inv).model_path with
    | error e =>
      rw [main_model_error env inv in_dir out_dir e hin hdir hout hm]
    | ok u =>
      cases u
      rw [main_valid env inv in_dir out_dir hin hdir hout hm]
      exact mainBody_mkdirCalls env in_dir out_dir _
  · intro hm hs
    rcases eq_or_ne (iter_images (env.listDir in_dir)) [] with hcase | hcase
    · rw [main_valid env inv in_dir out_dir hin hdir hout hm,
        mainBody_empty env in_dir out_dir _ hcase, hcase]
      rfl
    · rw [main_valid env inv in_dir out_dir hin hdir hout hm,
        mainBody_save_ok env in_dir out_dir _ hs hcase]

/-- Witness for C8 on `okEnv`: the output directory is created once and
both supported images land under their own filenames in `out`. -/
theorem C8_witness :
    (main okEnv stdInv).mkdirCalls = ["out"] ∧
    (main okEnv stdInv).saved =
      [("out/a.jpg", ⟨"a.jpg", "RGB", []⟩),
        ("out/b.PNG", ⟨"b.PNG", "RGB", specFaceOps sampleFace⟩)] := by
  have h := C8_output_layout okEnv stdInv "in" "out" rfl rfl rfl
  refine ⟨h.1, ?_⟩
  rw [h.2 rfl (fun _ _ => rfl)]
  decide

/-! ## Claim C9 -/

/-- C9 (confirmed, as a noninterference statement): the run's entire
observable result is a function of the input directory's listing, the
decoder, the detector, the saver and the model load at the parsed model
path.  Two environments agreeing on those — in particular two runs over
the same input directory contents with the same threshold and the same
deterministic detector — produce identical results: same exit status,
same error lines, and identical output files (same paths, same image
contents). -/
theorem C9_deterministic (env₁ env₂ : Env) (inv : Invocation)
    (hdir : ∀ d, inv.in_dir? = some d → env₁.isDir d = env₂.isDir d)
    (hlist : ∀ d, inv.in_dir? = some d → env₁.listDir d = env₂.listDir d)
    (hmodel : env₁.loadModel (parse_args inv).model_path =
      env₂.loadModel (parse_args inv).model_path)
    (hdec : env₁.decode = env₂.decode)
    (hdet : env₁.detect = env₂.detect)
    (hsave : env₁.save = env₂.save) :
    main env₁ inv = main env₂ inv := by
  have hdoi : detect_on_image env₁ = detect_on_image env₂ := by
    funext p th
    unfold detect_on_image
    rw [hdec, hdet]
  have hloop : ∀ out_dir th ps, runLoop env₁ out_dir th ps = runLoop env₂ out_dir th ps := by
    intro out_dir th ps
    induction ps with
    | nil => rfl
    | cons p rest ih => simp only [runLoop, hdoi, hsave, ih]
  cases hin : inv.in_dir? with
  | none =>
    have h1 : (parse_args inv).in_dir = none := by simp [parse_args, hin]
    simp [main, h1]
  | some d =>
    have h1 : (parse_args inv).in_dir = some d := by simp [parse_args, hin]
    have hd := hdir d hin
    have hl := hlist d hin
    simp only [main, h1]
    rw [← hd]
    cases henv : env₁.isDir d with
    | false => simp
    | true =>
      simp only [if_pos rfl]
      cases hout : inv.out_dir? with
      | none =>
        have h2 : (parse_args inv).out_dir = none := by simp [parse_args, hout]
        simp [h2]
      | some o =>
        have h2 : (parse_args inv).out_dir = some o := by simp [parse_args, hout]
        simp only [h2]
        rw [← hmodel]
        cases hm : env₁.loadModel (parse_args inv).model_path with
        | error e => rfl
        | ok u =>
          simp only [mainBody, hl, hloop]

/-- Witness for C9: `okEnv` and `okEnvB` agree on everything observable
under `stdInv` but differ on other directories and model paths; the two
runs coincide. -/
theorem C9_witness : main okEnv stdInv = main okEnvB stdInv :=
  C9_deterministic okEnv okEnvB stdInv
    (fun d h => by simp only [stdInv] at h; cases h; rfl)
    (fun d h => by simp only [stdInv] at h; cases h; rfl)
    rfl rfl rfl rfl

end BatchDetect
